import Mathlib

/-!
Verification of the solar feasibility core (`solar_feasibility_app.py`).

Shallow embedding of the three core functions:
  * `build_solar_profile` (ProfileBuilder, source lines 156-186),
  * `classify_solar_resource` (ResourceClassifier, source lines 189-197),
  * `estimate_pv_yield_and_financials` (FinancialEngine, source lines 200-303).

Python floats are modelled as exact rationals `ℚ`; the float sentinel
`float("nan")` / `None` used for "undefined" metrics is modelled as `Option ℚ`
with `none` as the undefined value, and a Python `dict` of monthly irradiance
values is modelled as `String → Option ℚ` (`none` = the key is absent, so a
lookup raises `KeyError`, the MissingMonthError of the spec).
-/

namespace SolarFeasibility

/-- Source line 151: the `MONTH_NAMES` module constant. -/
def MONTH_NAMES : List String :=
  ["Jan", "Feb", "Mar", "Apr", "May", "Jun",
   "Jul", "Aug", "Sep", "Oct", "Nov", "Dec"]

/-- Source line 153: the `MONTH_DAYS` module constant. -/
def MONTH_DAYS : List ℕ := [31, 28, 31, 30, 31, 30, 31, 31, 30, 31, 30, 31]

/-- The iteration table of the loop in `build_solar_profile`: for each index
`i`, the triple (display name `m_short`, NASA key `m_short[:3].upper()`,
`MONTH_DAYS[i]`).  The NASA keys are written out (the `.upper()` of each
3-letter name), exactly as the loop computes them. -/
def MONTH_TABLE : List (String × String × ℕ) :=
  [("Jan", "JAN", 31), ("Feb", "FEB", 28), ("Mar", "MAR", 31),
   ("Apr", "APR", 30), ("May", "MAY", 31), ("Jun", "JUN", 30),
   ("Jul", "JUL", 31), ("Aug", "AUG", 31), ("Sep", "SEP", 30),
   ("Oct", "OCT", 31), ("Nov", "NOV", 30), ("Dec", "DEC", 31)]

/-- The 12 NASA month keys the input mapping must contain. -/
def MONTH_KEYS : List String :=
  ["JAN", "FEB", "MAR", "APR", "MAY", "JUN",
   "JUL", "AUG", "SEP", "OCT", "NOV", "DEC"]

/-- One row of the profile DataFrame built by `build_solar_profile`
(source lines 175-181): month name, day count, daily horizontal GHI,
monthly horizontal total, monthly plane-of-array total. -/
structure MonthRow where
  month : String
  days : ℕ
  ghi_daily : ℚ
  ghi_monthly_horiz : ℚ
  ghi_monthly_poa : ℚ
deriving DecidableEq, Repr

/-- The profile DataFrame together with its two `attrs` scalars
(source lines 183-186). -/
structure SolarProfile where
  rows : List MonthRow
  annual_ghi_horizontal : ℚ
  annual_ghi_poa : ℚ
deriving DecidableEq, Repr

/-- The loop body of `build_solar_profile` (source lines 161-181): iterate
over the month table, look each NASA key up in the mapping (a missing key
raises `KeyError`, modelled as `none`), append a row, and accumulate the two
annual sums.  The accumulators start at `0.0` and the row list empty, as in
the source. -/
def build_solar_loop (ghi : String → Option ℚ) (tilt_gain_factor : ℚ) :
    List (String × String × ℕ) → List MonthRow → ℚ → ℚ → Option SolarProfile
  | [], rows, annual_horiz, annual_poa =>
      some ⟨rows, annual_horiz, annual_poa⟩
  | (m_short, nasa_key, days) :: rest, rows, annual_horiz, annual_poa =>
      match ghi nasa_key with
      | none => none
      | some daily_horiz =>
          let monthly_horiz := daily_horiz * (days : ℚ)
          let monthly_poa := monthly_horiz * tilt_gain_factor
          build_solar_loop ghi tilt_gain_factor rest
            (rows ++ [⟨m_short, days, daily_horiz, monthly_horiz, monthly_poa⟩])
            (annual_horiz + monthly_horiz) (annual_poa + monthly_poa)

/-- Embedding of `build_solar_profile` (source lines 156-186). -/
def build_solar_profile (ghi_daily_kwh_per_m2 : String → Option ℚ)
    (tilt_gain_factor : ℚ) : Option SolarProfile :=
  build_solar_loop ghi_daily_kwh_per_m2 tilt_gain_factor MONTH_TABLE [] 0 0

/-- Embedding of `classify_solar_resource` (source lines 189-197). -/
def classify_solar_resource (annual_poa_kwh_m2 : ℚ) : String :=
  if annual_poa_kwh_m2 ≥ 2200 then
    "Excellent solar resource (top tier for utility-scale PV)."
  else if annual_poa_kwh_m2 ≥ 1800 then
    "Good solar resource suitable for most PV projects."
  else if annual_poa_kwh_m2 ≥ 1400 then
    "Moderate solar resource; economics more sensitive to capex and tariff."
  else
    "Lower solar resource; PV may still work with strong incentives or high tariffs."

/-- The capital recovery factor computed at source lines 238-243:
`r = discount_rate_percent / 100`; if `r > 0` the compound formula,
otherwise `1.0 / n`. -/
def crf (discount_rate_percent : ℚ) (project_life_years : ℕ) : ℚ :=
  let r := discount_rate_percent / 100
  let n := project_life_years
  if r > 0 then r * (1 + r) ^ n / ((1 + r) ^ n - 1)
  else 1 / (n : ℚ)

/-- Source lines 275-276: the emission-equivalence constants. -/
def CAR_TCO2_PER_YEAR : ℚ := 46 / 10

def FOREST_TCO2_PER_HA_PER_YEAR : ℚ := 7

/-- The dict returned by `estimate_pv_yield_and_financials`
(source lines 287-303).  The three metrics the source sets to
`float("nan")` when undefined are `Option ℚ` here, `none` = undefined. -/
structure FeasibilityResult where
  annual_kwh_per_kwp : ℚ
  annual_energy_kwh : ℚ
  total_capex : ℚ
  effective_capex : ℚ
  annual_om : ℚ
  annual_revenue : ℚ
  annual_net_cashflow : ℚ
  simple_payback_years : Option ℚ
  lcoe_no_subsidy : Option ℚ
  lcoe_with_subsidy : Option ℚ
  capacity_factor : Option ℚ
  annual_ghg_savings_tco2 : ℚ
  cars_equiv : ℚ
  forest_ha_equiv : ℚ
  emission_factor_kg_per_kwh : ℚ
deriving DecidableEq, Repr

/-- Embedding of `estimate_pv_yield_and_financials` (source lines 200-303),
formula for formula in the source's order.  The profile argument supplies
`profile_df.attrs["annual_ghi_poa"]`. -/
def estimate_pv_yield_and_financials
    (profile : SolarProfile)
    (system_size_kwp performance_parameter capex_per_kwp tariff_per_kwh
      om_percent_of_capex : ℚ)
    (project_life_years : ℕ)
    (discount_rate_percent emission_factor_kg_per_kwh
      capex_subsidy_percent : ℚ) : FeasibilityResult :=
  let annual_poa_kwh_m2 := profile.annual_ghi_poa
  let annual_kwh_per_kwp := annual_poa_kwh_m2 * performance_parameter
  let annual_energy_kwh := annual_kwh_per_kwp * system_size_kwp
  let total_capex := capex_per_kwp * system_size_kwp
  let subsidy_fraction := capex_subsidy_percent / 100
  let effective_capex := total_capex * (1 - subsidy_fraction)
  let annual_om := total_capex * (om_percent_of_capex / 100)
  let annual_revenue := annual_energy_kwh * tariff_per_kwh
  let annual_net_cashflow := annual_revenue - annual_om
  let simple_payback_years : Option ℚ :=
    if annual_net_cashflow > 0 then some (effective_capex / annual_net_cashflow)
    else none
  let crf_val := crf discount_rate_percent project_life_years
  let annualized_capex_no_subsidy := total_capex * crf_val
  let annualized_capex_with_subsidy := effective_capex * crf_val
  let annualized_cost_no_subsidy := annualized_capex_no_subsidy + annual_om
  let annualized_cost_with_subsidy := annualized_capex_with_subsidy + annual_om
  let lcoe_no_subsidy : Option ℚ :=
    if annual_energy_kwh > 0 then some (annualized_cost_no_subsidy / annual_energy_kwh)
    else none
  let lcoe_with_subsidy : Option ℚ :=
    if annual_energy_kwh > 0 then some (annualized_cost_with_subsidy / annual_energy_kwh)
    else none
  let capacity_factor : Option ℚ :=
    if system_size_kwp > 0 then some (annual_energy_kwh / (system_size_kwp * 8760))
    else none
  let annual_ghg_savings_tco2 :=
    if annual_energy_kwh > 0 then annual_energy_kwh * emission_factor_kg_per_kwh / 1000
    else 0
  let cars_equiv :=
    if CAR_TCO2_PER_YEAR > 0 then annual_ghg_savings_tco2 / CAR_TCO2_PER_YEAR else 0
  let forest_ha_equiv :=
    if FOREST_TCO2_PER_HA_PER_YEAR > 0 then
      annual_ghg_savings_tco2 / FOREST_TCO2_PER_HA_PER_YEAR
    else 0
  { annual_kwh_per_kwp := annual_kwh_per_kwp
    annual_energy_kwh := annual_energy_kwh
    total_capex := total_capex
    effective_capex := effective_capex
    annual_om := annual_om
    annual_revenue := annual_revenue
    annual_net_cashflow := annual_net_cashflow
    simple_payback_years := simple_payback_years
    lcoe_no_subsidy := lcoe_no_subsidy
    lcoe_with_subsidy := lcoe_with_subsidy
    capacity_factor := capacity_factor
    annual_ghg_savings_tco2 := annual_ghg_savings_tco2
    cars_equiv := cars_equiv
    forest_ha_equiv := forest_ha_equiv
    emission_factor_kg_per_kwh := emission_factor_kg_per_kwh }

/-! Shared helper lemmas about the loop of `build_solar_profile` and about
the capital recovery factor. -/

/-- When every NASA key of the remaining table is present in the mapping with
value `v key`, the loop succeeds and returns the accumulated rows and sums. -/
lemma build_solar_loop_total (ghi : String → Option ℚ) (v : String → ℚ) (t : ℚ)
    (L : List (String × String × ℕ)) (rows : List MonthRow) (aH aP : ℚ)
    (h : ∀ e ∈ L, ghi e.2.1 = some (v e.2.1)) :
    build_solar_loop ghi t L rows aH aP =
      some ⟨rows ++ L.map (fun e =>
              ⟨e.1, e.2.2, v e.2.1, v e.2.1 * (e.2.2 : ℚ),
               v e.2.1 * (e.2.2 : ℚ) * t⟩),
            aH + (L.map (fun e => v e.2.1 * (e.2.2 : ℚ))).sum,
            aP + (L.map (fun e => v e.2.1 * (e.2.2 : ℚ) * t)).sum⟩ := by
  induction L generalizing rows aH aP with
  | nil => simp [build_solar_loop]
  | cons e rest ih =>
    obtain ⟨m_short, nasa_key, days⟩ := e
    have hk : ghi nasa_key = some (v nasa_key) := h _ (List.mem_cons_self _ _)
    have hrest : ∀ e ∈ rest, ghi e.2.1 = some (v e.2.1) :=
      fun e he => h e (List.mem_cons_of_mem _ he)
    simp only [build_solar_loop, hk]
    rw [ih _ _ _ hrest]
    simp [add_assoc, List.append_assoc]

/-- The loop fails exactly when some NASA key of the remaining table is
absent from the mapping. -/
lemma build_solar_loop_none_iff (ghi : String → Option ℚ) (t : ℚ)
    (L : List (String × String × ℕ)) (rows : List MonthRow) (aH aP : ℚ) :
    build_solar_loop ghi t L rows aH aP = none ↔ ∃ e ∈ L, ghi e.2.1 = none := by
  induction L generalizing rows aH aP with
  | nil => simp [build_solar_loop]
  | cons e rest ih =>
    obtain ⟨m_short, nasa_key, days⟩ := e
    cases hk : ghi nasa_key with
    | none => simp [build_solar_loop, hk]
    | some daily =>
      simp only [build_solar_loop, hk]
      rw [ih]
      simp [hk]

/-- The capital recovery factor is strictly positive for any nonnegative
discount rate and project life of at least one year. -/
lemma crf_pos (d : ℚ) (n : ℕ) (hd : 0 ≤ d) (hn : 1 ≤ n) :
    0 < crf d n := by
  unfold crf
  by_cases hr : d / 100 > 0
  · simp only [hr, if_true]
    set r : ℚ := d / 100 with hrdef
    have h1r : (1 : ℚ) < 1 + r := by linarith
    have hpow : (1 : ℚ) < (1 + r) ^ n :=
      one_lt_pow₀ h1r (by omega)
    have hnum : 0 < r * (1 + r) ^ n := by positivity
    have hden : 0 < (1 + r) ^ n - 1 := by linarith
    exact div_pos hnum hden
  · simp only [hr, if_false]
    have hn0 : (0 : ℚ) < (n : ℚ) := by exact_mod_cast hn
    positivity

/-- When all 12 month keys are present, `build_solar_profile` returns the
fully explicit profile: one row per calendar month with the fixed day table,
`monthly_horizontal = daily × days`, `monthly_poa = monthly_horizontal × t`,
and the two annual scalars as the sums over the 12 months. -/
lemma build_solar_profile_explicit (ghi : String → Option ℚ) (t : ℚ)
    (jan feb mar apr may jun jul aug sep oct nov dec : ℚ)
    (h1 : ghi "JAN" = some jan) (h2 : ghi "FEB" = some feb)
    (h3 : ghi "MAR" = some mar) (h4 : ghi "APR" = some apr)
    (h5 : ghi "MAY" = some may) (h6 : ghi "JUN" = some jun)
    (h7 : ghi "JUL" = some jul) (h8 : ghi "AUG" = some aug)
    (h9 : ghi "SEP" = some sep) (h10 : ghi "OCT" = some oct)
    (h11 : ghi "NOV" = some nov) (h12 : ghi "DEC" = some dec) :
    build_solar_profile ghi t = some
      ⟨[⟨"Jan", 31, jan, jan * 31, jan * 31 * t⟩,
        ⟨"Feb", 28, feb, feb * 28, feb * 28 * t⟩,
        ⟨"Mar", 31, mar, mar * 31, mar * 31 * t⟩,
        ⟨"Apr", 30, apr, apr * 30, apr * 30 * t⟩,
        ⟨"May", 31, may, may * 31, may * 31 * t⟩,
        ⟨"Jun", 30, jun, jun * 30, jun * 30 * t⟩,
        ⟨"Jul", 31, jul, jul * 31, jul * 31 * t⟩,
        ⟨"Aug", 31, aug, aug * 31, aug * 31 * t⟩,
        ⟨"Sep", 30, sep, sep * 30, sep * 30 * t⟩,
        ⟨"Oct", 31, oct, oct * 31, oct * 31 * t⟩,
        ⟨"Nov", 30, nov, nov * 30, nov * 30 * t⟩,
        ⟨"Dec", 31, dec, dec * 31, dec * 31 * t⟩],
       jan * 31 + feb * 28 + mar * 31 + apr * 30 + may * 31 + jun * 30 +
         jul * 31 + aug * 31 + sep * 30 + oct * 31 + nov * 30 + dec * 31,
       (jan * 31 + feb * 28 + mar * 31 + apr * 30 + may * 31 + jun * 30 +
         jul * 31 + aug * 31 + sep * 30 + oct * 31 + nov * 30 + dec * 31) * t⟩ := by
  simp only [build_solar_profile, MONTH_TABLE, build_solar_loop,
    h1, h2, h3, h4, h5, h6, h7, h8, h9, h10, h11, h12,
    Option.some.injEq, SolarProfile.mk.injEq, List.cons.injEq,
    MonthRow.mk.injEq, List.nil_append, List.cons_append, List.append_nil]
  norm_num
  ring

/-! Claim theorems. -/

/-- C6: for every finite real annual plane-of-array irradiation `x`,
`classify_solar_resource` is total and returns exactly one of four tiers by
first-match threshold comparison from highest to lowest: Excellent when
`x ≥ 2200`, Good when `1800 ≤ x < 2200`, Moderate when `1400 ≤ x < 1800`,
and Lower when `x < 1400` (including `x = 0` and negative `x`); it never
fails. -/
theorem classify_solar_resource_tiers (x : ℚ) :
    (2200 ≤ x →
      classify_solar_resource x =
        "Excellent solar resource (top tier for utility-scale PV).") ∧
    (1800 ≤ x → x < 2200 →
      classify_solar_resource x =
        "Good solar resource suitable for most PV projects.") ∧
    (1400 ≤ x → x < 1800 →
      classify_solar_resource x =
        "Moderate solar resource; economics more sensitive to capex and tariff.") ∧
    (x < 1400 →
      classify_solar_resource x =
        "Lower solar resource; PV may still work with strong incentives or high tariffs.") := by
  refine ⟨fun h => ?_, fun h h2 => ?_, fun h h2 => ?_, fun h => ?_⟩ <;>
    unfold classify_solar_resource <;>
    split_ifs with a b c <;>
    first
      | rfl
      | (exfalso; simp only [ge_iff_le, not_le] at *; linarith)

/-- C6 witness: the tier theorem applied at one concrete input in each of the
four ranges. -/
theorem classify_solar_resource_tiers_witness :
    classify_solar_resource 2500 =
      "Excellent solar resource (top tier for utility-scale PV)." ∧
    classify_solar_resource 2000 =
      "Good solar resource suitable for most PV projects." ∧
    classify_solar_resource 1500 =
      "Moderate solar resource; economics more sensitive to capex and tariff." ∧
    classify_solar_resource 0 =
      "Lower solar resource; PV may still work with strong incentives or high tariffs." :=
  ⟨(classify_solar_resource_tiers 2500).1 (by decide),
   (classify_solar_resource_tiers 2000).2.1 (by decide) (by decide),
   (classify_solar_resource_tiers 1500).2.2.1 (by decide) (by decide),
   (classify_solar_resource_tiers 0).2.2.2 (by decide)⟩

/-- C5: for every project life `n ≥ 1` and discount rate percent `d ≥ 0`,
the capital recovery factor equals, with `r = d/100`,
`r(1+r)^n / ((1+r)^n − 1)` when `r > 0` (equivalently `d > 0`), and exactly
`1/n` when `d = 0`, taken by the branch that never evaluates the compound
formula's division. -/
theorem crf_spec (d : ℚ) (n : ℕ) (hn : 1 ≤ n) (hd : 0 ≤ d) :
    (0 < d →
      crf d n = (d / 100) * (1 + d / 100) ^ n / ((1 + d / 100) ^ n - 1)) ∧
    (d = 0 → crf d n = 1 / (n : ℚ)) := by
  constructor
  · intro h
    unfold crf
    rw [if_pos (by positivity)]
  · intro h
    subst h
    unfold crf
    norm_num

/-- C5 witness: the CRF theorem applied at `d = 0`, `n = 5` (zero-rate
branch) and at `d = 100`, `n = 1` (compound branch). -/
theorem crf_spec_witness :
    crf 0 5 = 1 / (5 : ℚ) ∧
    crf 100 1 = (100 / 100 : ℚ) * (1 + 100 / 100) ^ 1 / ((1 + 100 / 100) ^ 1 - 1) :=
  ⟨(crf_spec 0 5 (by decide) (by decide)).2 rfl,
   (crf_spec 100 1 (by decide) (by decide)).1 (by decide)⟩

/-- C4: for every assumptions bundle, `simple_payback_years` is defined and
equals `effective_capex / annual_net_cashflow` if and only if
`annual_net_cashflow > 0`; when `annual_net_cashflow ≤ 0` (including exactly
0) it is the undefined sentinel (`none`), not zero and not negative, and no
error is raised (the function is total). -/
theorem simple_payback_spec (p : SolarProfile) (sz pr cx tr om : ℚ) (n : ℕ)
    (d ef s : ℚ) :
    (0 < (estimate_pv_yield_and_financials p sz pr cx tr om n d ef s).annual_net_cashflow →
      (estimate_pv_yield_and_financials p sz pr cx tr om n d ef s).simple_payback_years =
        some ((estimate_pv_yield_and_financials p sz pr cx tr om n d ef s).effective_capex /
              (estimate_pv_yield_and_financials p sz pr cx tr om n d ef s).annual_net_cashflow)) ∧
    ((estimate_pv_yield_and_financials p sz pr cx tr om n d ef s).annual_net_cashflow ≤ 0 →
      (estimate_pv_yield_and_financials p sz pr cx tr om n d ef s).simple_payback_years = none) := by
  have hproj :
      (estimate_pv_yield_and_financials p sz pr cx tr om n d ef s).simple_payback_years =
        if 0 < (estimate_pv_yield_and_financials p sz pr cx tr om n d ef s).annual_net_cashflow then
          some ((estimate_pv_yield_and_financials p sz pr cx tr om n d ef s).effective_capex /
                (estimate_pv_yield_and_financials p sz pr cx tr om n d ef s).annual_net_cashflow)
        else none := rfl
  constructor
  · intro h
    rw [hproj, if_pos h]
  · intro h
    rw [hproj, if_neg (not_lt.mpr h)]

/-- C4 witness: the payback theorem applied at a bundle with positive net
cashflow and at a bundle with zero net cashflow. -/
theorem simple_payback_spec_witness :
    (estimate_pv_yield_and_financials ⟨[], 0, 1000⟩ 1 1 0 1 0 1 0 0 0).simple_payback_years =
      some ((estimate_pv_yield_and_financials ⟨[], 0, 1000⟩ 1 1 0 1 0 1 0 0 0).effective_capex /
            (estimate_pv_yield_and_financials ⟨[], 0, 1000⟩ 1 1 0 1 0 1 0 0 0).annual_net_cashflow) ∧
    (estimate_pv_yield_and_financials ⟨[], 0, 1000⟩ 1 1 0 0 0 1 0 0 0).simple_payback_years = none :=
  ⟨(simple_payback_spec ⟨[], 0, 1000⟩ 1 1 0 1 0 1 0 0 0).1
      (by norm_num [estimate_pv_yield_and_financials]),
   (simple_payback_spec ⟨[], 0, 1000⟩ 1 1 0 0 0 1 0 0 0).2
      (by norm_num [estimate_pv_yield_and_financials])⟩

/-- C9: for every assumptions bundle, `annual_om` equals
`total_capex × (om_percent/100)` with `total_capex = capex_per_kwp ×
system_size_kwp` the gross pre-subsidy capex; consequently `annual_om` and
`annual_net_cashflow` are identical for any two subsidy percentages with all
other inputs equal. -/
theorem annual_om_gross_capex (p : SolarProfile) (sz pr cx tr om : ℚ) (n : ℕ)
    (d ef s1 s2 : ℚ) :
    (estimate_pv_yield_and_financials p sz pr cx tr om n d ef s1).total_capex = cx * sz ∧
    (estimate_pv_yield_and_financials p sz pr cx tr om n d ef s1).annual_om =
      (estimate_pv_yield_and_financials p sz pr cx tr om n d ef s1).total_capex * (om / 100) ∧
    (estimate_pv_yield_and_financials p sz pr cx tr om n d ef s1).annual_om =
      (estimate_pv_yield_and_financials p sz pr cx tr om n d ef s2).annual_om ∧
    (estimate_pv_yield_and_financials p sz pr cx tr om n d ef s1).annual_net_cashflow =
      (estimate_pv_yield_and_financials p sz pr cx tr om n d ef s2).annual_net_cashflow :=
  ⟨rfl, rfl, rfl, rfl⟩

/-- C3: for every input mapping, the profile builder fails (raises
MissingMonthError, modelled as `none`) if and only if at least one of the 12
required month keys JAN..DEC is absent from the mapping; when all 12 keys
are present it succeeds and returns a profile. -/
theorem build_missing_month_spec (ghi : String → Option ℚ) (t : ℚ) :
    (build_solar_profile ghi t = none ↔ ∃ k ∈ MONTH_KEYS, ghi k = none) ∧
    ((∀ k ∈ MONTH_KEYS, (ghi k).isSome) → ∃ p, build_solar_profile ghi t = some p) := by
  have hmap : MONTH_KEYS = MONTH_TABLE.map (fun e => e.2.1) := by rfl
  have hiff : build_solar_profile ghi t = none ↔ ∃ k ∈ MONTH_KEYS, ghi k = none := by
    rw [build_solar_profile, build_solar_loop_none_iff, hmap]
    constructor
    · rintro ⟨e, he, hn⟩
      exact ⟨e.2.1, List.mem_map_of_mem _ he, hn⟩
    · rintro ⟨k, hk, hn⟩
      obtain ⟨e, he, rfl⟩ := List.mem_map.mp hk
      exact ⟨e, he, hn⟩
  refine ⟨hiff, fun h => ?_⟩
  cases hb : build_solar_profile ghi t with
  | some p => exact ⟨p, rfl⟩
  | none =>
    obtain ⟨k, hk, hn⟩ := hiff.mp hb
    have := h k hk
    rw [hn] at this
    simp at this

/-- C3 witness: the missing-month theorem applied to a complete mapping
(succeeds) and to a mapping missing the FEB key (fails). -/
theorem build_missing_month_spec_witness :
    (∃ p, build_solar_profile (fun _ => some (5 : ℚ)) (11 / 10) = some p) ∧
    build_solar_profile (fun k => if k = "FEB" then none else some (5 : ℚ)) (11 / 10) = none := by
  constructor
  · exact (build_missing_month_spec (fun _ => some (5 : ℚ)) (11 / 10)).2 (by decide)
  · exact (build_missing_month_spec _ (11 / 10)).1.mpr ⟨"FEB", by decide, by decide⟩

/-- C1 counterexample: an assumptions bundle satisfying every spec
precondition (system size 1 kWp > 0, performance ratio 4/5, capex 800,
tariff 3/20, O&M 3/2 %, life 25 y, discount 8 %, subsidy 0, emission factor
3/5) on an all-zero irradiance mapping: the computed `annual_energy` is 0,
yet `capacity_factor` is the defined number `some 0`, not the undefined
sentinel the claim requires. -/
theorem c1_counterexample :
    (build_solar_profile (fun _ => some 0) (11 / 10)).map
      (fun p =>
        ((estimate_pv_yield_and_financials p 1 (4 / 5) 800 (3 / 20) (3 / 2) 25 8 (3 / 5) 0).annual_energy_kwh,
         (estimate_pv_yield_and_financials p 1 (4 / 5) 800 (3 / 20) (3 / 2) 25 8 (3 / 5) 0).capacity_factor)) =
      some ((0 : ℚ), some (0 : ℚ)) := by
  norm_num [build_solar_profile, MONTH_TABLE, build_solar_loop,
    estimate_pv_yield_and_financials]

/-- C1 (amended): for every bundle, whenever the computed `annual_energy`
equals 0, the engine returns `LCOE_no_subsidy` and `LCOE_with_subsidy` as
the undefined sentinel and `annual_ghg_savings_tco2 = 0`; `capacity_factor`
is the undefined sentinel exactly when `system_size_kwp ≤ 0` — when
`system_size_kwp > 0` (the spec's precondition) it is the defined number 0,
not the sentinel. -/
theorem energy_zero_metrics (p : SolarProfile) (sz pr cx tr om : ℚ) (n : ℕ)
    (d ef s : ℚ)
    (hE : (estimate_pv_yield_and_financials p sz pr cx tr om n d ef s).annual_energy_kwh = 0) :
    (estimate_pv_yield_and_financials p sz pr cx tr om n d ef s).lcoe_no_subsidy = none ∧
    (estimate_pv_yield_and_financials p sz pr cx tr om n d ef s).lcoe_with_subsidy = none ∧
    (estimate_pv_yield_and_financials p sz pr cx tr om n d ef s).annual_ghg_savings_tco2 = 0 ∧
    (0 < sz →
      (estimate_pv_yield_and_financials p sz pr cx tr om n d ef s).capacity_factor = some 0) ∧
    (sz ≤ 0 →
      (estimate_pv_yield_and_financials p sz pr cx tr om n d ef s).capacity_factor = none) := by
  have h1 : (estimate_pv_yield_and_financials p sz pr cx tr om n d ef s).lcoe_no_subsidy =
      if 0 < (estimate_pv_yield_and_financials p sz pr cx tr om n d ef s).annual_energy_kwh then
        some (((estimate_pv_yield_and_financials p sz pr cx tr om n d ef s).total_capex * crf d n +
               (estimate_pv_yield_and_financials p sz pr cx tr om n d ef s).annual_om) /
              (estimate_pv_yield_and_financials p sz pr cx tr om n d ef s).annual_energy_kwh)
      else none := rfl
  have h2 : (estimate_pv_yield_and_financials p sz pr cx tr om n d ef s).lcoe_with_subsidy =
      if 0 < (estimate_pv_yield_and_financials p sz pr cx tr om n d ef s).annual_energy_kwh then
        some (((estimate_pv_yield_and_financials p sz pr cx tr om n d ef s).effective_capex * crf d n +
               (estimate_pv_yield_and_financials p sz pr cx tr om n d ef s).annual_om) /
              (estimate_pv_yield_and_financials p sz pr cx tr om n d ef s).annual_energy_kwh)
      else none := rfl
  have h3 : (estimate_pv_yield_and_financials p sz pr cx tr om n d ef s).annual_ghg_savings_tco2 =
      if 0 < (estimate_pv_yield_and_financials p sz pr cx tr om n d ef s).annual_energy_kwh then
        (estimate_pv_yield_and_financials p sz pr cx tr om n d ef s).annual_energy_kwh * ef / 1000
      else 0 := rfl
  have h4 : (estimate_pv_yield_and_financials p sz pr cx tr om n d ef s).capacity_factor =
      if 0 < sz then
        some ((estimate_pv_yield_and_financials p sz pr cx tr om n d ef s).annual_energy_kwh /
              (sz * 8760))
      else none := rfl
  refine ⟨?_, ?_, ?_, fun hsz => ?_, fun hsz => ?_⟩
  · rw [h1, hE, if_neg (lt_irrefl 0)]
  · rw [h2, hE, if_neg (lt_irrefl 0)]
  · rw [h3, hE, if_neg (lt_irrefl 0)]
  · rw [h4, if_pos hsz, hE, zero_div]
  · rw [h4, if_neg (not_lt.mpr hsz)]

/-- C1 (amended) witness: the amended theorem applied to an all-undefined
boundary bundle with zero annual POA irradiation and system size 1. -/
theorem energy_zero_metrics_witness :
    (estimate_pv_yield_and_financials ⟨[], 0, 0⟩ 1 1 800 (3 / 20) (3 / 2) 25 8 (3 / 5) 0).lcoe_no_subsidy = none ∧
    (estimate_pv_yield_and_financials ⟨[], 0, 0⟩ 1 1 800 (3 / 20) (3 / 2) 25 8 (3 / 5) 0).lcoe_with_subsidy = none ∧
    (estimate_pv_yield_and_financials ⟨[], 0, 0⟩ 1 1 800 (3 / 20) (3 / 2) 25 8 (3 / 5) 0).annual_ghg_savings_tco2 = 0 ∧
    (estimate_pv_yield_and_financials ⟨[], 0, 0⟩ 1 1 800 (3 / 20) (3 / 2) 25 8 (3 / 5) 0).capacity_factor = some 0 := by
  have h := energy_zero_metrics ⟨[], 0, 0⟩ 1 1 800 (3 / 20) (3 / 2) 25 8 (3 / 5) 0
    (by norm_num [estimate_pv_yield_and_financials])
  exact ⟨h.1, h.2.1, h.2.2.1, h.2.2.2.1 (by norm_num)⟩

/-- C2: for every input mapping containing all 12 month keys and every
tilt-gain factor, the profile builder produces, for each calendar month with
the fixed day table (Jan=31, Feb=28, Mar=31, Apr=30, May=31, Jun=30, Jul=31,
Aug=31, Sep=30, Oct=31, Nov=30, Dec=31), `monthly_horizontal = daily × days`
and `monthly_poa = monthly_horizontal × tilt_gain_factor`, and its two
annual scalars equal the sums of the 12 monthly values (a 365-day year, no
leap-year adjustment). -/
theorem build_profile_monthly_spec (ghi : String → Option ℚ) (t : ℚ)
    (jan feb mar apr may jun jul aug sep oct nov dec : ℚ)
    (h1 : ghi "JAN" = some jan) (h2 : ghi "FEB" = some feb)
    (h3 : ghi "MAR" = some mar) (h4 : ghi "APR" = some apr)
    (h5 : ghi "MAY" = some may) (h6 : ghi "JUN" = some jun)
    (h7 : ghi "JUL" = some jul) (h8 : ghi "AUG" = some aug)
    (h9 : ghi "SEP" = some sep) (h10 : ghi "OCT" = some oct)
    (h11 : ghi "NOV" = some nov) (h12 : ghi "DEC" = some dec) :
    ∃ p, build_solar_profile ghi t = some p ∧
      p.rows =
        [⟨"Jan", 31, jan, jan * 31, jan * 31 * t⟩,
         ⟨"Feb", 28, feb, feb * 28, feb * 28 * t⟩,
         ⟨"Mar", 31, mar, mar * 31, mar * 31 * t⟩,
         ⟨"Apr", 30, apr, apr * 30, apr * 30 * t⟩,
         ⟨"May", 31, may, may * 31, may * 31 * t⟩,
         ⟨"Jun", 30, jun, jun * 30, jun * 30 * t⟩,
         ⟨"Jul", 31, jul, jul * 31, jul * 31 * t⟩,
         ⟨"Aug", 31, aug, aug * 31, aug * 31 * t⟩,
         ⟨"Sep", 30, sep, sep * 30, sep * 30 * t⟩,
         ⟨"Oct", 31, oct, oct * 31, oct * 31 * t⟩,
         ⟨"Nov", 30, nov, nov * 30, nov * 30 * t⟩,
         ⟨"Dec", 31, dec, dec * 31, dec * 31 * t⟩] ∧
      (∀ r ∈ p.rows, r.ghi_monthly_horiz = r.ghi_daily * (r.days : ℚ) ∧
        r.ghi_monthly_poa = r.ghi_monthly_horiz * t) ∧
      p.annual_ghi_horizontal = (p.rows.map (fun r => r.ghi_monthly_horiz)).sum ∧
      p.annual_ghi_poa = (p.rows.map (fun r => r.ghi_monthly_poa)).sum := by
  refine ⟨_, build_solar_profile_explicit ghi t jan feb mar apr may jun jul aug
    sep oct nov dec h1 h2 h3 h4 h5 h6 h7 h8 h9 h10 h11 h12, rfl, ?_, ?_, ?_⟩
  · intro r hr
    simp only [List.mem_cons, List.not_mem_nil, or_false] at hr
    rcases hr with rfl | rfl | rfl | rfl | rfl | rfl | rfl | rfl | rfl | rfl | rfl | rfl <;>
      exact ⟨by norm_num, rfl⟩
  · simp only [List.map_cons, List.map_nil, List.sum_cons, List.sum_nil]
    ring
  · simp only [List.map_cons, List.map_nil, List.sum_cons, List.sum_nil]
    ring

/-- C2 witness: the monthly-values theorem applied to the constant mapping
sending every month key to 5 kWh/m²/day with tilt-gain factor 2. -/
theorem build_profile_monthly_spec_witness :
    ∃ p, build_solar_profile (fun _ => some (5 : ℚ)) 2 = some p ∧
      p.rows =
        [⟨"Jan", 31, 5, 5 * 31, 5 * 31 * 2⟩,
         ⟨"Feb", 28, 5, 5 * 28, 5 * 28 * 2⟩,
         ⟨"Mar", 31, 5, 5 * 31, 5 * 31 * 2⟩,
         ⟨"Apr", 30, 5, 5 * 30, 5 * 30 * 2⟩,
         ⟨"May", 31, 5, 5 * 31, 5 * 31 * 2⟩,
         ⟨"Jun", 30, 5, 5 * 30, 5 * 30 * 2⟩,
         ⟨"Jul", 31, 5, 5 * 31, 5 * 31 * 2⟩,
         ⟨"Aug", 31, 5, 5 * 31, 5 * 31 * 2⟩,
         ⟨"Sep", 30, 5, 5 * 30, 5 * 30 * 2⟩,
         ⟨"Oct", 31, 5, 5 * 31, 5 * 31 * 2⟩,
         ⟨"Nov", 30, 5, 5 * 30, 5 * 30 * 2⟩,
         ⟨"Dec", 31, 5, 5 * 31, 5 * 31 * 2⟩] ∧
      (∀ r ∈ p.rows, r.ghi_monthly_horiz = r.ghi_daily * (r.days : ℚ) ∧
        r.ghi_monthly_poa = r.ghi_monthly_horiz * 2) ∧
      p.annual_ghi_horizontal = (p.rows.map (fun r => r.ghi_monthly_horiz)).sum ∧
      p.annual_ghi_poa = (p.rows.map (fun r => r.ghi_monthly_poa)).sum :=
  build_profile_monthly_spec (fun _ => some (5 : ℚ)) 2 5 5 5 5 5 5 5 5 5 5 5 5
    rfl rfl rfl rfl rfl rfl rfl rfl rfl rfl rfl rfl

/-- C7: for every valid 12-month input and every tilt-gain factor, the
annual horizontal total equals the sum over the 12 months of
`daily_i × days_i` for the fixed day-count table, and the annual
plane-of-array total equals the annual horizontal total multiplied by the
tilt-gain factor, exactly. -/
theorem annual_totals_spec (ghi : String → Option ℚ) (t : ℚ)
    (jan feb mar apr may jun jul aug sep oct nov dec : ℚ)
    (h1 : ghi "JAN" = some jan) (h2 : ghi "FEB" = some feb)
    (h3 : ghi "MAR" = some mar) (h4 : ghi "APR" = some apr)
    (h5 : ghi "MAY" = some may) (h6 : ghi "JUN" = some jun)
    (h7 : ghi "JUL" = some jul) (h8 : ghi "AUG" = some aug)
    (h9 : ghi "SEP" = some sep) (h10 : ghi "OCT" = some oct)
    (h11 : ghi "NOV" = some nov) (h12 : ghi "DEC" = some dec) :
    ∃ p, build_solar_profile ghi t = some p ∧
      p.annual_ghi_horizontal =
        jan * 31 + feb * 28 + mar * 31 + apr * 30 + may * 31 + jun * 30 +
          jul * 31 + aug * 31 + sep * 30 + oct * 31 + nov * 30 + dec * 31 ∧
      p.annual_ghi_poa = p.annual_ghi_horizontal * t :=
  ⟨_, build_solar_profile_explicit ghi t jan feb mar apr may jun jul aug
    sep oct nov dec h1 h2 h3 h4 h5 h6 h7 h8 h9 h10 h11 h12, rfl, rfl⟩

/-- C7 witness: the annual-totals theorem applied to the constant mapping
sending every month key to 5 kWh/m²/day with tilt-gain factor 2. -/
theorem annual_totals_spec_witness :
    ∃ p, build_solar_profile (fun _ => some (5 : ℚ)) 2 = some p ∧
      p.annual_ghi_horizontal =
        5 * 31 + 5 * 28 + 5 * 31 + 5 * 30 + 5 * 31 + 5 * 30 +
          5 * 31 + 5 * 31 + 5 * 30 + 5 * 31 + 5 * 30 + (5 : ℚ) * 31 ∧
      p.annual_ghi_poa = p.annual_ghi_horizontal * 2 :=
  annual_totals_spec (fun _ => some (5 : ℚ)) 2 5 5 5 5 5 5 5 5 5 5 5 5
    rfl rfl rfl rfl rfl rfl rfl rfl rfl rfl rfl rfl

/-- C8: for every valid 12-month input, every month, and every strictly
larger replacement value for that month's daily irradiance with all other
months held fixed, the profile's annual horizontal total strictly increases,
and for every `tilt_gain_factor > 0` the annual plane-of-array total also
strictly increases. -/
theorem monthly_increase_strict (ghi : String → Option ℚ) (v : String → ℚ) (t : ℚ)
    (hv : ∀ e ∈ MONTH_TABLE, ghi e.2.1 = some (v e.2.1))
    (name m : String) (dm : ℕ) (hm : (name, m, dm) ∈ MONTH_TABLE)
    (w : ℚ) (hw : v m < w) :
    ∃ p q, build_solar_profile ghi t = some p ∧
      build_solar_profile (fun k => if k = m then some w else ghi k) t = some q ∧
      p.annual_ghi_horizontal < q.annual_ghi_horizontal ∧
      (0 < t → p.annual_ghi_poa < q.annual_ghi_poa) := by
  have hv2 : ∀ e ∈ MONTH_TABLE,
      (fun k => if k = m then some w else ghi k) e.2.1 =
        some ((fun k => if k = m then w else v k) e.2.1) := by
    intro e he
    by_cases h : e.2.1 = m
    · simp [h]
    · simp [h, hv e he]
  have hp := build_solar_loop_total ghi v t MONTH_TABLE [] 0 0 hv
  have hq := build_solar_loop_total (fun k => if k = m then some w else ghi k)
    (fun k => if k = m then w else v k) t MONTH_TABLE [] 0 0 hv2
  have hdays : ∀ e ∈ MONTH_TABLE, (0 : ℚ) < (e.2.2 : ℚ) := by
    intro e he
    fin_cases he <;> norm_num
  have hle : ∀ e ∈ MONTH_TABLE,
      v e.2.1 * (e.2.2 : ℚ) ≤ (fun k => if k = m then w else v k) e.2.1 * (e.2.2 : ℚ) := by
    intro e he
    by_cases h : e.2.1 = m
    · simp only [h, if_pos rfl]
      exact mul_le_mul_of_nonneg_right hw.le (by positivity)
    · simp [h]
  have hlt : ∃ e ∈ MONTH_TABLE,
      v e.2.1 * (e.2.2 : ℚ) < (fun k => if k = m then w else v k) e.2.1 * (e.2.2 : ℚ) := by
    refine ⟨(name, m, dm), hm, ?_⟩
    simp only [if_pos rfl]
    exact mul_lt_mul_of_pos_right hw (hdays _ hm)
  have hS : (MONTH_TABLE.map (fun e => v e.2.1 * (e.2.2 : ℚ))).sum <
      (MONTH_TABLE.map (fun e => (fun k => if k = m then w else v k) e.2.1 * (e.2.2 : ℚ))).sum :=
    List.sum_lt_sum _ _ hle hlt
  refine ⟨_, _, by rw [build_solar_profile]; exact hp,
    by rw [build_solar_profile]; exact hq, by simpa using hS, fun ht => ?_⟩
  have hle2 : ∀ e ∈ MONTH_TABLE,
      v e.2.1 * (e.2.2 : ℚ) * t ≤
        (fun k => if k = m then w else v k) e.2.1 * (e.2.2 : ℚ) * t :=
    fun e he => mul_le_mul_of_nonneg_right (hle e he) ht.le
  have hlt2 : ∃ e ∈ MONTH_TABLE,
      v e.2.1 * (e.2.2 : ℚ) * t <
        (fun k => if k = m then w else v k) e.2.1 * (e.2.2 : ℚ) * t := by
    refine ⟨(name, m, dm), hm, ?_⟩
    simp only [if_pos rfl]
    exact mul_lt_mul_of_pos_right
      (mul_lt_mul_of_pos_right hw (hdays _ hm)) ht
  simpa using List.sum_lt_sum _ _ hle2 hlt2

/-- C8 witness: the monotonicity theorem applied to the constant 5 mapping,
raising June from 5 to 6 with tilt-gain factor 1. -/
theorem monthly_increase_strict_witness :
    ∃ p q, build_solar_profile (fun _ => some (5 : ℚ)) 1 = some p ∧
      build_solar_profile (fun k => if k = "JUN" then some 6 else some (5 : ℚ)) 1 = some q ∧
      p.annual_ghi_horizontal < q.annual_ghi_horizontal ∧
      ((0 : ℚ) < 1 → p.annual_ghi_poa < q.annual_ghi_poa) :=
  monthly_increase_strict (fun _ => some (5 : ℚ)) (fun _ => (5 : ℚ)) 1
    (fun _ _ => rfl) "Jun" "JUN" 30 (by decide) 6 (by norm_num)

/-- C10: for every assumptions bundle with `capex_per_kwp ≥ 0`,
`system_size_kwp ≥ 0`, subsidy percent in `[0, 100]`, discount rate ≥ 0,
project life ≥ 1, and positive `annual_energy` (so both LCOE values are
defined), `LCOE_with_subsidy ≤ LCOE_no_subsidy`, with equality exactly when
the subsidy percent is 0 or `total_capex × CRF = 0`. -/
theorem lcoe_subsidy_ordering (p : SolarProfile) (sz pr cx tr om : ℚ) (n : ℕ)
    (d ef s : ℚ)
    (hcx : 0 ≤ cx) (hsz : 0 ≤ sz) (hs0 : 0 ≤ s) (hs1 : s ≤ 100)
    (hd : 0 ≤ d) (hn : 1 ≤ n)
    (hE : 0 < (estimate_pv_yield_and_financials p sz pr cx tr om n d ef s).annual_energy_kwh) :
    ∃ l1 l2,
      (estimate_pv_yield_and_financials p sz pr cx tr om n d ef s).lcoe_no_subsidy = some l1 ∧
      (estimate_pv_yield_and_financials p sz pr cx tr om n d ef s).lcoe_with_subsidy = some l2 ∧
      l2 ≤ l1 ∧
      (l2 = l1 ↔ s = 0 ∨
        (estimate_pv_yield_and_financials p sz pr cx tr om n d ef s).total_capex * crf d n = 0) := by
  set R := estimate_pv_yield_and_financials p sz pr cx tr om n d ef s with hR
  have h1 : R.lcoe_no_subsidy =
      if 0 < R.annual_energy_kwh then
        some ((R.total_capex * crf d n + R.annual_om) / R.annual_energy_kwh)
      else none := rfl
  have h2 : R.lcoe_with_subsidy =
      if 0 < R.annual_energy_kwh then
        some ((R.total_capex * (1 - s / 100) * crf d n + R.annual_om) / R.annual_energy_kwh)
      else none := rfl
  have hCval : R.total_capex = cx * sz := rfl
  set E := R.annual_energy_kwh with hEdef
  set C := R.total_capex with hCdef
  set OM := R.annual_om with hOMdef
  set K := crf d n with hKdef
  have hKpos : 0 < K := crf_pos d n hd hn
  have hCnn : 0 ≤ C := by rw [hCval]; exact mul_nonneg hcx hsz
  have hCK : 0 ≤ C * K * (s / 100) :=
    mul_nonneg (mul_nonneg hCnn hKpos.le) (by linarith)
  have expand : C * K + OM - (C * (1 - s / 100) * K + OM) = C * K * (s / 100) := by
    ring
  refine ⟨(C * K + OM) / E, (C * (1 - s / 100) * K + OM) / E,
    by rw [h1, if_pos hE], by rw [h2, if_pos hE], ?_, ?_⟩
  · rw [div_le_div_right hE]
    linarith
  · rw [div_eq_div_iff (ne_of_gt hE) (ne_of_gt hE)]
    constructor
    · intro h
      have hnum : C * (1 - s / 100) * K + OM = C * K + OM :=
        mul_right_cancel₀ (ne_of_gt hE) h
      have hz : C * K * (s / 100) = 0 := by linarith
      rcases mul_eq_zero.mp hz with hck | hs
      · exact Or.inr hck
      · left
        rcases div_eq_zero_iff.mp hs with h0 | h100
        · exact h0
        · norm_num at h100
    · intro h
      rcases h with hs | hck
      · subst hs; norm_num
      · have e1 : C * (1 - s / 100) * K = C * K * (1 - s / 100) := by ring
        rw [e1, hck]
        ring

/-- C10 witness: the LCOE ordering theorem applied to a concrete bundle with
1000 kWh/m²/yr of POA irradiation, system size 1, capex 800, subsidy 50 %,
zero discount rate and a one-year life. -/
theorem lcoe_subsidy_ordering_witness :
    ∃ l1 l2,
      (estimate_pv_yield_and_financials ⟨[], 0, 1000⟩ 1 1 800 0 0 1 0 0 50).lcoe_no_subsidy = some l1 ∧
      (estimate_pv_yield_and_financials ⟨[], 0, 1000⟩ 1 1 800 0 0 1 0 0 50).lcoe_with_subsidy = some l2 ∧
      l2 ≤ l1 ∧
      (l2 = l1 ↔ (50 : ℚ) = 0 ∨
        (estimate_pv_yield_and_financials ⟨[], 0, 1000⟩ 1 1 800 0 0 1 0 0 50).total_capex * crf 0 1 = 0) :=
  lcoe_subsidy_ordering ⟨[], 0, 1000⟩ 1 1 800 0 0 1 0 0 50
    (by norm_num) (by norm_num) (by norm_num) (by norm_num) (by norm_num)
    (by norm_num) (by norm_num [estimate_pv_yield_and_financials])

end SolarFeasibility
